import Mathlib

/-!
Shallow embedding of `Temperature_Monitoring_System.ino`.

The sketch keeps three module-level mutable variables
(`display_count : bool`, `previousTemp : int`, `tempEqualCount : int`) and
runs one polling cycle per `loop()` call.  We embed the two pure pieces of
logic — the trend-indicator update `handleTemperatureTrend` and the Arduino
`map`-based intensity computation — as Lean functions over an explicit
state, and the whole `loop()` body as a state-passing function that also
returns the list of I/O effects it performs, in order.  Sensor floats are
modelled as `Option ℚ` (`none` plays the role of NaN, the only float
property `loop()` inspects); `int(...)` truncation of a float and C integer
division in `map` truncate toward zero, which is `Int.tdiv`.
-/

set_option maxRecDepth 60000

namespace TempMon

/-- The five rendering instructions the trend indicator can produce
(`Up`, `Down`, `SteadyBlinkOn`, `SteadyBlinkOff`, `NoChange`). -/
inductive TrendDirective
  | up
  | down
  | steadyBlinkOn
  | steadyBlinkOff
  | noChange
deriving DecidableEq, Repr

/-- The persistent trend state: globals `previousTemp` and `tempEqualCount`
of the sketch (`lastIntegerTempC` / `steadyCycleCount` in the spec),
both initialized to 0. -/
structure TrendState where
  previousTemp : ℤ
  tempEqualCount : ℤ
deriving DecidableEq, Repr

/-- One observable side effect of a cycle: serial output, LCD commands,
the PWM write and the fixed delays. -/
inductive Effect
  | delayMs (ms : ℕ)
  | serialPrintStr (s : String)
  | serialPrintNum (q : ℚ)
  | serialPrintlnStr (s : String)
  | lcdClear
  | lcdSetCursor (col row : ℕ)
  | lcdPrintStr (s : String)
  | lcdPrintInt (n : ℤ)
  | lcdWriteStr (s : String)
  | lcdWriteByte (b : ℕ)
  | analogWrite (pin : ℕ) (value : ℤ)
deriving DecidableEq, Repr

/-- LCD commands of the `currentTemp < previousTemp` branch
(lines 195–198): blank (14,0), down arrow (custom char 2) at (14,1). -/
def downEffects : List Effect :=
  [Effect.lcdSetCursor 14 0, Effect.lcdWriteStr " ",
   Effect.lcdSetCursor 14 1, Effect.lcdWriteByte 2]

/-- LCD commands of the `currentTemp > previousTemp` branch
(lines 202–205): blank (14,1), up arrow (custom char 1) at (14,0). -/
def upEffects : List Effect :=
  [Effect.lcdSetCursor 14 1, Effect.lcdWriteStr " ",
   Effect.lcdSetCursor 14 0, Effect.lcdWriteByte 1]

/-- LCD commands of the `tempEqualCount > 100 && tempEqualCount < 150`
branch (lines 212–215): blank (14,1), "=" at (14,0). -/
def blinkOnEffects : List Effect :=
  [Effect.lcdSetCursor 14 1, Effect.lcdWriteStr " ",
   Effect.lcdSetCursor 14 0, Effect.lcdWriteStr "="]

/-- LCD commands of the `tempEqualCount > 200` branch (lines 217–220):
blank both (14,1) and (14,0). -/
def blinkOffEffects : List Effect :=
  [Effect.lcdSetCursor 14 1, Effect.lcdWriteStr " ",
   Effect.lcdSetCursor 14 0, Effect.lcdWriteStr " "]

/-- `handleTemperatureTrend(int currentTemp)` (lines 193–225), with the
globals it reads and writes made explicit: returns the updated
`TrendState` and the LCD effects performed, in order. -/
def handleTemperatureTrend (currentTemp : ℤ) (s : TrendState) :
    TrendState × List Effect :=
  if currentTemp < s.previousTemp then
    (⟨currentTemp, 0⟩, downEffects)
  else if currentTemp > s.previousTemp then
    (⟨currentTemp, 0⟩, upEffects)
  else
    -- currentTemp == previousTemp
    let c := if s.tempEqualCount > 500 then 0 else s.tempEqualCount
    (⟨s.previousTemp, c + 1⟩,
     if c > 100 ∧ c < 150 then blinkOnEffects
     else if c > 200 then blinkOffEffects
     else [])

/-- Abstraction of an effect list into the directive it renders:
each branch of `handleTemperatureTrend` emits a distinct fixed list of
LCD commands, and the empty list means nothing is redrawn. -/
def directiveOfEffects (effs : List Effect) : TrendDirective :=
  if effs = downEffects then TrendDirective.down
  else if effs = upEffects then TrendDirective.up
  else if effs = blinkOnEffects then TrendDirective.steadyBlinkOn
  else if effs = blinkOffEffects then TrendDirective.steadyBlinkOff
  else TrendDirective.noChange

/-- The directive rendered by one trend update. -/
def trendDirective (t : ℤ) (s : TrendState) : TrendDirective :=
  directiveOfEffects (handleTemperatureTrend t s).2

/-- The state after one trend update. -/
def trendStep (t : ℤ) (s : TrendState) : TrendState :=
  (handleTemperatureTrend t s).1

/-- The state after a sequence of trend updates. -/
def runTrend (ts : List ℤ) (s : TrendState) : TrendState :=
  ts.foldl (fun st t => trendStep t st) s

/-- The directives rendered by a sequence of trend updates. -/
def trendDirectives : List ℤ → TrendState → List TrendDirective
  | [], _ => []
  | t :: ts, s => trendDirective t s :: trendDirectives ts (trendStep t s)

/-- The intermediate states after each update of a sequence. -/
def trendStates : List ℤ → TrendState → List TrendState
  | [], _ => []
  | t :: ts, s => trendStep t s :: trendStates ts (trendStep t s)

/-- Arduino `map(x, in_min, in_max, out_min, out_max)`:
`(x - in_min) * (out_max - out_min) / (in_max - in_min) + out_min` with
C `long` division, which truncates toward zero (`Int.tdiv`). -/
def arduinoMap (x inMin inMax outMin outMax : ℤ) : ℤ :=
  Int.tdiv ((x - inMin) * (outMax - outMin)) (inMax - inMin) + outMin

/-- The intensity mapping of line 177: `map(int(tempC), -40, 80, 0, 255)`. -/
def mapIntensity (tempC : ℤ) : ℤ :=
  arduinoMap tempC (-40) 80 0 255

/-- C cast `int(x)` of a float value, truncating toward zero; on a
rational `q` this is `q.num` T-divided by `q.den`. -/
def itrunc (q : ℚ) : ℤ :=
  Int.tdiv q.num q.den

/-- One DHT poll as `loop()` sees it: the three values returned by
`readHumidity()`, `readTemperature()` and `readTemperature(true)`;
`none` stands for NaN (a failed read). -/
structure DhtSample where
  humidity : Option ℚ
  tempC : Option ℚ
  tempF : Option ℚ

/-- The complete mutable global state of the sketch:
`display_count`, `previousTemp`, `tempEqualCount` (lines 101–103). -/
structure LoopState where
  display_count : Bool
  previousTemp : ℤ
  tempEqualCount : ℤ
deriving DecidableEq, Repr

/-- `ledPin = 2` (line 106). -/
def ledPin : ℕ := 2

/-- `displayFormattedTemperature(int temp, const char* unit)`
(lines 182–190): padding spaces, the number, the degree glyph
(custom char 0) and the unit. -/
def displayFormattedTemperature (temp : ℤ) (unit : String) : List Effect :=
  (if temp < 0 ∧ temp > -10 then [Effect.lcdPrintStr " "]
   else if temp ≥ 0 ∧ temp < 10 then [Effect.lcdPrintStr "  "]
   else if temp > 9 ∧ temp < 100 then [Effect.lcdPrintStr " "]
   else []) ++
  [Effect.lcdPrintInt temp, Effect.lcdWriteByte 0, Effect.lcdPrintStr unit]

/-- The serial report of a successful cycle (lines 152–162). -/
def serialReport (humidity tempC tempF heatIndexC heatIndexF : ℚ) :
    List Effect :=
  [Effect.serialPrintStr "Humidity: ", Effect.serialPrintNum humidity,
   Effect.serialPrintStr "%  Temperature: ", Effect.serialPrintNum tempC,
   Effect.serialPrintStr "°C ", Effect.serialPrintNum tempF,
   Effect.serialPrintStr "°F  Heat index: ", Effect.serialPrintNum heatIndexC,
   Effect.serialPrintStr "°C ", Effect.serialPrintNum heatIndexF,
   Effect.serialPrintlnStr "°F"]

/-- The body of `loop()` (lines 121–179).  `hi` stands for the vendor
function `dht.computeHeatIndex` (its third argument is the
`isFahrenheit` flag, defaulted to `true` on line 149).  A sample with
any `none` component is the `isnan(...)` failure case (lines 130–145):
`loop()` then toggles `display_count` between the two-line message and
a cleared screen and returns early.  On success it reports over serial,
renders both temperatures, runs the trend update and writes the mapped
PWM intensity (lines 147–178). -/
def loopStep (hi : ℚ → ℚ → Bool → ℚ) (sample : DhtSample) (s : LoopState) :
    LoopState × List Effect :=
  match sample.humidity, sample.tempC, sample.tempF with
  | some humidity, some tempC, some tempF =>
      let heatIndexC := hi tempC humidity false
      let heatIndexF := hi tempF humidity true
      let tr := handleTemperatureTrend (itrunc tempC)
        ⟨s.previousTemp, s.tempEqualCount⟩
      let pwmValue := mapIntensity (itrunc tempC)
      (⟨s.display_count, tr.1.previousTemp, tr.1.tempEqualCount⟩,
       Effect.delayMs 100 ::
       serialReport humidity tempC tempF heatIndexC heatIndexF ++
       [Effect.lcdSetCursor 0 0, Effect.lcdPrintStr "Temperature ",
        Effect.lcdSetCursor 0 1] ++
       displayFormattedTemperature (itrunc tempC) "C" ++
       [Effect.lcdSetCursor 6 1] ++
       displayFormattedTemperature (itrunc tempF) "F" ++
       tr.2 ++
       [Effect.analogWrite ledPin pwmValue])
  | _, _, _ =>
      if s.display_count then
        (⟨false, s.previousTemp, s.tempEqualCount⟩,
         [Effect.delayMs 100,
          Effect.serialPrintlnStr "Failed to read from DHT sensor!",
          Effect.lcdClear, Effect.delayMs 200])
      else
        (⟨true, s.previousTemp, s.tempEqualCount⟩,
         [Effect.delayMs 100,
          Effect.serialPrintlnStr "Failed to read from DHT sensor!",
          Effect.lcdSetCursor 0 0, Effect.lcdPrintStr "Failed to read",
          Effect.lcdSetCursor 0 1, Effect.lcdPrintStr "from DHT sensor!",
          Effect.delayMs 200])

/-- The PWM values a cycle writes, in order (extracts the `analogWrite`
effects). -/
def actuationValues (effs : List Effect) : List ℤ :=
  effs.filterMap fun e =>
    match e with
    | Effect.analogWrite _ v => some v
    | _ => none

/-- The directive pattern one full steady period actually produces,
starting from `tempEqualCount = 0`: entry counts 0..100 give `NoChange`
(101 cycles), 101..149 give `SteadyBlinkOn` (49), 150..200 give
`NoChange` (51), 201..500 give `SteadyBlinkOff` (300). -/
def steadyPattern : List TrendDirective :=
  List.replicate 101 TrendDirective.noChange ++
  List.replicate 49 TrendDirective.steadyBlinkOn ++
  List.replicate 51 TrendDirective.noChange ++
  List.replicate 300 TrendDirective.steadyBlinkOff

/-! ### Helper lemmas -/

theorem directiveOf_down : directiveOfEffects downEffects = TrendDirective.down := by
  decide

theorem directiveOf_up : directiveOfEffects upEffects = TrendDirective.up := by
  decide

theorem directiveOf_blinkOn :
    directiveOfEffects blinkOnEffects = TrendDirective.steadyBlinkOn := by
  decide

theorem directiveOf_blinkOff :
    directiveOfEffects blinkOffEffects = TrendDirective.steadyBlinkOff := by
  decide

theorem directiveOf_nil : directiveOfEffects [] = TrendDirective.noChange := by
  decide

theorem handleTemperatureTrend_lt (t : ℤ) (s : TrendState) (h : t < s.previousTemp) :
    handleTemperatureTrend t s = (⟨t, 0⟩, downEffects) := by
  simp [handleTemperatureTrend, h]

theorem handleTemperatureTrend_gt (t : ℤ) (s : TrendState) (h : t > s.previousTemp) :
    handleTemperatureTrend t s = (⟨t, 0⟩, upEffects) := by
  have h' : ¬ t < s.previousTemp := by omega
  simp [handleTemperatureTrend, h, h']

theorem handleTemperatureTrend_eq (p k : ℤ) :
    handleTemperatureTrend p ⟨p, k⟩ =
      (⟨p, (if k > 500 then 0 else k) + 1⟩,
       if (if k > 500 then 0 else k) > 100 ∧ (if k > 500 then 0 else k) < 150 then
         blinkOnEffects
       else if (if k > 500 then 0 else k) > 200 then blinkOffEffects
       else []) := by
  simp [handleTemperatureTrend]

/-! ### Claim theorems -/

/-- C1: with the input equal to the stored `previousTemp`, the directive is
a function of `tempEqualCount` at entry with exactly these boundaries:
at 100 it is `NoChange`, at 101 and 149 `SteadyBlinkOn`, at 150 and 200
`NoChange`, at 201 `SteadyBlinkOff`. -/
theorem C1_steady_boundaries (p : ℤ) :
    trendDirective p ⟨p, 100⟩ = TrendDirective.noChange ∧
    trendDirective p ⟨p, 101⟩ = TrendDirective.steadyBlinkOn ∧
    trendDirective p ⟨p, 149⟩ = TrendDirective.steadyBlinkOn ∧
    trendDirective p ⟨p, 150⟩ = TrendDirective.noChange ∧
    trendDirective p ⟨p, 200⟩ = TrendDirective.noChange ∧
    trendDirective p ⟨p, 201⟩ = TrendDirective.steadyBlinkOff := by
  refine ⟨?_, ?_, ?_, ?_, ?_, ?_⟩ <;>
    simp [trendDirective, handleTemperatureTrend_eq, directiveOf_nil,
      directiveOf_blinkOn, directiveOf_blinkOff]

/-- C2: an input strictly below the stored `previousTemp` emits `Down`,
stores the input as `previousTemp` and resets `tempEqualCount` to 0;
an input strictly above emits `Up` and does the same updates. -/
theorem C2_up_down (t : ℤ) (s : TrendState) :
    (t < s.previousTemp →
      trendDirective t s = TrendDirective.down ∧ trendStep t s = ⟨t, 0⟩) ∧
    (t > s.previousTemp →
      trendDirective t s = TrendDirective.up ∧ trendStep t s = ⟨t, 0⟩) := by
  constructor
  · intro h
    rw [trendDirective, trendStep, handleTemperatureTrend_lt t s h]
    exact ⟨directiveOf_down, rfl⟩
  · intro h
    rw [trendDirective, trendStep, handleTemperatureTrend_gt t s h]
    exact ⟨directiveOf_up, rfl⟩

/-- Witness for C2 at concrete inputs: 1 < 2 gives `Down`, 3 > 2 gives
`Up`, both resetting the counter. -/
theorem C2_up_down_witness :
    (trendDirective 1 ⟨2, 5⟩ = TrendDirective.down ∧
      trendStep 1 ⟨2, 5⟩ = ⟨1, 0⟩) ∧
    (trendDirective 3 ⟨2, 5⟩ = TrendDirective.up ∧
      trendStep 3 ⟨2, 5⟩ = ⟨3, 0⟩) :=
  ⟨(C2_up_down 1 ⟨2, 5⟩).1 (by decide), (C2_up_down 3 ⟨2, 5⟩).2 (by decide)⟩

/-- C4 counterexample: from the initial state `{0, 0}`, the sequence
`[20, 20, 21, 21, 20]` does NOT yield
`[NoChange, NoChange, Up, NoChange, Down]` — the first sample 20 is
compared against the initial `previousTemp = 0`, so it emits `Up`. -/
theorem C4_counterexample :
    trendDirectives [(20 : ℤ), 20, 21, 21, 20] ⟨0, 0⟩ ≠
      [TrendDirective.noChange, TrendDirective.noChange, TrendDirective.up,
       TrendDirective.noChange, TrendDirective.down] := by
  decide

/-- C4 (amended): from the initial state `{0, 0}`, the sequence
`[20, 20, 21, 21, 20]` yields `[Up, NoChange, Up, NoChange, Down]`. -/
theorem C4_scenario :
    trendDirectives [(20 : ℤ), 20, 21, 21, 20] ⟨0, 0⟩ =
      [TrendDirective.up, TrendDirective.noChange, TrendDirective.up,
       TrendDirective.noChange, TrendDirective.down] := by
  decide

/-- C7: the intensity mapping sends -40 to 0, 80 to 255 and 20 to 127
(integer-truncating linear interpolation from [-40, 80] to [0, 255]). -/
theorem C7_map_values :
    mapIntensity (-40) = 0 ∧ mapIntensity 80 = 255 ∧ mapIntensity 20 = 127 := by
  decide

theorem runTrend_nil (s : TrendState) : runTrend [] s = s := rfl

theorem runTrend_cons (t : ℤ) (ts : List ℤ) (s : TrendState) :
    runTrend (t :: ts) s = runTrend ts (trendStep t s) := rfl

theorem trendDirectives_append (l1 l2 : List ℤ) (s : TrendState) :
    trendDirectives (l1 ++ l2) s =
      trendDirectives l1 s ++ trendDirectives l2 (runTrend l1 s) := by
  induction l1 generalizing s with
  | nil => simp [trendDirectives, runTrend_nil]
  | cons t ts ih => simp [trendDirectives, runTrend_cons, ih]

theorem runTrend_append (l1 l2 : List ℤ) (s : TrendState) :
    runTrend (l1 ++ l2) s = runTrend l2 (runTrend l1 s) := by
  simp [runTrend, List.foldl_append]

/-- A steady step below the wrap threshold just increments the counter. -/
theorem trendStep_steady (p c : ℤ) (hc : ¬ c > 500) :
    trendStep p ⟨p, c⟩ = ⟨p, c + 1⟩ := by
  rw [trendStep, handleTemperatureTrend_eq]
  simp [hc]

/-- Holding the temperature constant for `n` cycles below the wrap
threshold adds `n` to the counter. -/
theorem runTrend_replicate_steady (p : ℤ) (n : ℕ) (c : ℤ) (h0 : 0 ≤ c)
    (h1 : c + n ≤ 501) :
    runTrend (List.replicate n p) ⟨p, c⟩ = ⟨p, c + n⟩ := by
  induction n generalizing c with
  | zero => simp [runTrend_nil]
  | succ n ih =>
      rw [List.replicate_succ, runTrend_cons,
        trendStep_steady p c (by push_cast at h1; omega),
        ih (c + 1) (by omega) (by push_cast at h1 ⊢; omega)]
      congr 1
      push_cast
      ring

theorem runTrend_steady_501 :
    runTrend (List.replicate 501 (20 : ℤ)) ⟨20, 0⟩ = ⟨20, 501⟩ := by
  have h := runTrend_replicate_steady 20 501 0 (by norm_num) (by norm_num)
  simpa using h

/-- C3 counterexample: holding the temperature constant for 501 cycles
from a steady state with `tempEqualCount = 0` does NOT produce the
claimed pattern `{NoChange×100, SteadyBlinkOn×49, NoChange×50,
SteadyBlinkOff×remainder}` (the leading `NoChange` run is 101 cycles,
not 100), and the counter does not wrap within those 501 cycles: it
ends at 501, not 0. -/
theorem C3_counterexample :
    trendDirectives (List.replicate 501 (20 : ℤ)) ⟨20, 0⟩ ≠
      List.replicate 100 TrendDirective.noChange ++
      List.replicate 49 TrendDirective.steadyBlinkOn ++
      List.replicate 50 TrendDirective.noChange ++
      List.replicate 302 TrendDirective.steadyBlinkOff ∧
    (runTrend (List.replicate 501 (20 : ℤ)) ⟨20, 0⟩).tempEqualCount = 501 := by
  constructor
  · decide
  · rw [runTrend_steady_501]

/-- C3 (amended): holding the temperature constant for 501 cycles from a
steady state with `tempEqualCount = 0` produces the pattern
`{NoChange×101, SteadyBlinkOn×49, NoChange×51, SteadyBlinkOff×300}` and
leaves the counter at 501; the wrap to 0 happens on the 502nd cycle
(where the entry value 501 exceeds 500), and the pattern then repeats
identically with period 501. -/
theorem C3_steady_period :
    trendDirectives (List.replicate 501 (20 : ℤ)) ⟨20, 0⟩ = steadyPattern ∧
    (runTrend (List.replicate 501 (20 : ℤ)) ⟨20, 0⟩).tempEqualCount = 501 ∧
    (runTrend (List.replicate 502 (20 : ℤ)) ⟨20, 0⟩).tempEqualCount = 1 ∧
    trendDirectives (List.replicate 1002 (20 : ℤ)) ⟨20, 0⟩ =
      steadyPattern ++ steadyPattern := by
  have h1 : trendDirectives (List.replicate 501 (20 : ℤ)) ⟨20, 0⟩ =
      steadyPattern := by decide
  have h2 : trendDirectives (List.replicate 501 (20 : ℤ)) ⟨20, 501⟩ =
      steadyPattern := by decide
  have h502 : runTrend (List.replicate 502 (20 : ℤ)) ⟨20, 0⟩ = ⟨20, 1⟩ := by
    rw [show (502 : ℕ) = 501 + 1 from rfl, List.replicate_add, runTrend_append,
      runTrend_steady_501]
    decide
  refine ⟨h1, by rw [runTrend_steady_501], by rw [h502], ?_⟩
  rw [show (1002 : ℕ) = 501 + 501 from rfl, List.replicate_add,
    trendDirectives_append, h1, runTrend_steady_501, h2]

/-- One trend update keeps the counter within `[0, 501]`. -/
theorem trendStep_count_bounds (t : ℤ) (s : TrendState)
    (h0 : 0 ≤ s.tempEqualCount) (h1 : s.tempEqualCount ≤ 501) :
    0 ≤ (trendStep t s).tempEqualCount ∧ (trendStep t s).tempEqualCount ≤ 501 := by
  unfold trendStep handleTemperatureTrend
  split
  · exact ⟨le_refl 0, by norm_num⟩
  · split
    · exact ⟨le_refl 0, by norm_num⟩
    · simp only []
      split <;> omega

/-- Running any update sequence keeps the counter within `[0, 501]`. -/
theorem runTrend_count_bounds (ts : List ℤ) (s : TrendState)
    (h0 : 0 ≤ s.tempEqualCount) (h1 : s.tempEqualCount ≤ 501) :
    0 ≤ (runTrend ts s).tempEqualCount ∧ (runTrend ts s).tempEqualCount ≤ 501 := by
  induction ts generalizing s with
  | nil => exact ⟨h0, h1⟩
  | cons t ts ih =>
      have hb := trendStep_count_bounds t s h0 h1
      exact ih (trendStep t s) hb.1 hb.2

/-- C10: from the initial state `{0, 0}`, after any input sequence the
counter satisfies `0 ≤ tempEqualCount ≤ 501`, and the bound 501 is
attained: 501 constant samples drive the counter to exactly 501 (the
wrap test `> 500` runs at entry, the increment after the branch). -/
theorem C10_count_invariant :
    (∀ ts : List ℤ,
      0 ≤ (runTrend ts ⟨0, 0⟩).tempEqualCount ∧
      (runTrend ts ⟨0, 0⟩).tempEqualCount ≤ 501) ∧
    (runTrend (List.replicate 501 (0 : ℤ)) ⟨0, 0⟩).tempEqualCount = 501 := by
  refine ⟨fun ts => runTrend_count_bounds ts ⟨0, 0⟩ (by norm_num) (by norm_num), ?_⟩
  have h := runTrend_replicate_steady 0 501 0 (by norm_num) (by norm_num)
  rw [h]
  norm_num

/-- Strictly ascending inputs from `previousTemp = p` always take the
`Up` branch: every directive is `Up` and every intermediate state has a
zero counter. -/
theorem runTrend_chain_up (ts : List ℤ) (p : ℤ)
    (h : List.Chain' (· < ·) (p :: ts)) :
    trendDirectives ts ⟨p, 0⟩ = List.replicate ts.length TrendDirective.up ∧
    ∀ s' ∈ trendStates ts ⟨p, 0⟩, s'.tempEqualCount = 0 := by
  induction ts generalizing p with
  | nil => simp [trendDirectives, trendStates]
  | cons t ts ih =>
      have hpt : p < t := (List.chain'_cons.mp h).1
      have hrest : List.Chain' (· < ·) (t :: ts) := (List.chain'_cons.mp h).2
      have hdir : trendDirective t ⟨p, 0⟩ = TrendDirective.up := by
        rw [trendDirective, handleTemperatureTrend_gt t ⟨p, 0⟩ hpt]
        exact directiveOf_up
      have hstep : trendStep t ⟨p, 0⟩ = ⟨t, 0⟩ := by
        rw [trendStep, handleTemperatureTrend_gt t ⟨p, 0⟩ hpt]
      obtain ⟨ih1, ih2⟩ := ih t hrest
      constructor
      · simp [trendDirectives, hstep, hdir, ih1, List.replicate_succ]
      · intro s' hs'
        rw [trendStates, hstep] at hs'
        rcases List.mem_cons.mp hs' with h1 | h2
        · rw [h1]
        · exact ih2 s' h2

/-- C5 counterexample: `[0]` is strictly increasing, yet fed from the
initial state `{0, 0}` it emits `NoChange` (not `Up`) and leaves the
counter at 1 (not 0), because the first sample equals the initial
`previousTemp = 0`. -/
theorem C5_counterexample :
    List.Chain' (· < ·) [(0 : ℤ)] ∧
    trendDirectives [(0 : ℤ)] ⟨0, 0⟩ ≠ List.replicate 1 TrendDirective.up ∧
    (trendStep 0 ⟨0, 0⟩).tempEqualCount ≠ 0 := by
  refine ⟨List.chain'_singleton 0, by decide, by decide⟩

/-- C5 (amended): for every strictly increasing integer sequence whose
first element is strictly greater than 0 (the initial `previousTemp`),
feeding it from the initial state `{0, 0}` emits `Up` at every step and
keeps the counter at 0 after every step.  (`Chain' (· < ·) (0 :: ts)`
states exactly that `ts` is strictly increasing and starts above 0.) -/
theorem C5_strictly_increasing (ts : List ℤ)
    (h : List.Chain' (· < ·) ((0 : ℤ) :: ts)) :
    trendDirectives ts ⟨0, 0⟩ = List.replicate ts.length TrendDirective.up ∧
    ∀ s' ∈ trendStates ts ⟨0, 0⟩, s'.tempEqualCount = 0 :=
  runTrend_chain_up ts 0 h

/-- Witness for C5 at the concrete sequence `[1, 2]`. -/
theorem C5_strictly_increasing_witness :
    trendDirectives [(1 : ℤ), 2] ⟨0, 0⟩ =
      List.replicate 2 TrendDirective.up ∧
    ∀ s' ∈ trendStates [(1 : ℤ), 2] ⟨0, 0⟩, s'.tempEqualCount = 0 :=
  C5_strictly_increasing [1, 2]
    (List.chain'_cons.mpr ⟨by norm_num,
      List.chain'_cons.mpr ⟨by norm_num, List.chain'_singleton 2⟩⟩)

theorem mapIntensity_eq (t : ℤ) :
    mapIntensity t = Int.tdiv ((t + 40) * 255) 120 := by
  unfold mapIntensity arduinoMap
  norm_num

/-- C8: the intensity mapping does not clamp — below -40 the extrapolated
output is negative, above 80 it exceeds 255. -/
theorem C8_unclamped (t : ℤ) :
    (t < -40 → mapIntensity t < 0) ∧ (t > 80 → mapIntensity t > 255) := by
  constructor
  · intro h
    rw [mapIntensity_eq]
    have h1 : (t + 40) * 255 ≤ -255 := by nlinarith
    have h2 : (t + 40) * 255 = -(-((t + 40) * 255)) := by ring
    rw [h2, Int.neg_tdiv]
    rw [Int.tdiv_eq_ediv (by linarith) (by norm_num)]
    omega
  · intro h
    rw [mapIntensity_eq]
    have h1 : (121 : ℤ) * 255 ≤ (t + 40) * 255 := by nlinarith
    rw [Int.tdiv_eq_ediv (by nlinarith) (by norm_num)]
    omega

/-- Witness for C8 at -41 and 81. -/
theorem C8_unclamped_witness :
    ((-41 : ℤ) < -40 ∧ mapIntensity (-41) < 0) ∧
    ((81 : ℤ) > 80 ∧ mapIntensity 81 > 255) :=
  ⟨⟨by norm_num, (C8_unclamped (-41)).1 (by norm_num)⟩,
   ⟨by norm_num, (C8_unclamped 81).2 (by norm_num)⟩⟩

theorem actuationValues_append (l1 l2 : List Effect) :
    actuationValues (l1 ++ l2) = actuationValues l1 ++ actuationValues l2 :=
  List.filterMap_append l1 l2 _

/-- The trend update performs no PWM write in any branch. -/
theorem actuationValues_trend (t : ℤ) (s : TrendState) :
    actuationValues (handleTemperatureTrend t s).2 = [] := by
  simp only [handleTemperatureTrend]
  split_ifs <;> rfl

theorem actuationValues_display (t : ℤ) (u : String) :
    actuationValues (displayFormattedTemperature t u) = [] := by
  simp only [displayFormattedTemperature]
  split_ifs <;> rfl

theorem actuationValues_serial (a b c d e : ℚ) :
    actuationValues (serialReport a b c d e) = [] := rfl

/-- A successful cycle writes exactly one PWM value:
`mapIntensity` of the truncated Celsius reading — independently of the
loop state. -/
theorem loopStep_actuation (hi : ℚ → ℚ → Bool → ℚ) (hu tc tf : ℚ)
    (s : LoopState) :
    actuationValues (loopStep hi ⟨some hu, some tc, some tf⟩ s).2 =
      [mapIntensity (itrunc tc)] := by
  show actuationValues
    (Effect.delayMs 100 ::
     serialReport hu tc tf (hi tc hu false) (hi tf hu true) ++
     [Effect.lcdSetCursor 0 0, Effect.lcdPrintStr "Temperature ",
      Effect.lcdSetCursor 0 1] ++
     displayFormattedTemperature (itrunc tc) "C" ++
     [Effect.lcdSetCursor 6 1] ++
     displayFormattedTemperature (itrunc tf) "F" ++
     (handleTemperatureTrend (itrunc tc)
        ⟨s.previousTemp, s.tempEqualCount⟩).2 ++
     [Effect.analogWrite ledPin (mapIntensity (itrunc tc))]) = _
  rw [List.cons_append, List.cons_append]
  show actuationValues
    (Effect.delayMs 100 ::
     (serialReport hu tc tf (hi tc hu false) (hi tf hu true) ++
      [Effect.lcdSetCursor 0 0, Effect.lcdPrintStr "Temperature ",
       Effect.lcdSetCursor 0 1] ++
      displayFormattedTemperature (itrunc tc) "C" ++
      [Effect.lcdSetCursor 6 1] ++
      displayFormattedTemperature (itrunc tf) "F" ++
      (handleTemperatureTrend (itrunc tc)
         ⟨s.previousTemp, s.tempEqualCount⟩).2 ++
      [Effect.analogWrite ledPin (mapIntensity (itrunc tc))])) = _
  rw [show actuationValues
      (Effect.delayMs 100 ::
       (serialReport hu tc tf (hi tc hu false) (hi tf hu true) ++
        [Effect.lcdSetCursor 0 0, Effect.lcdPrintStr "Temperature ",
         Effect.lcdSetCursor 0 1] ++
        displayFormattedTemperature (itrunc tc) "C" ++
        [Effect.lcdSetCursor 6 1] ++
        displayFormattedTemperature (itrunc tf) "F" ++
        (handleTemperatureTrend (itrunc tc)
           ⟨s.previousTemp, s.tempEqualCount⟩).2 ++
        [Effect.analogWrite ledPin (mapIntensity (itrunc tc))])) =
      actuationValues
        (serialReport hu tc tf (hi tc hu false) (hi tf hu true) ++
         [Effect.lcdSetCursor 0 0, Effect.lcdPrintStr "Temperature ",
          Effect.lcdSetCursor 0 1] ++
         displayFormattedTemperature (itrunc tc) "C" ++
         [Effect.lcdSetCursor 6 1] ++
         displayFormattedTemperature (itrunc tf) "F" ++
         (handleTemperatureTrend (itrunc tc)
            ⟨s.previousTemp, s.tempEqualCount⟩).2 ++
         [Effect.analogWrite ledPin (mapIntensity (itrunc tc))]) from rfl]
  rw [actuationValues_append, actuationValues_append, actuationValues_append,
    actuationValues_append, actuationValues_append, actuationValues_append,
    actuationValues_serial, actuationValues_display, actuationValues_display,
    actuationValues_trend]
  rfl

/-- C6: on a failed read (any of the three values NaN), the cycle leaves
`previousTemp` and `tempEqualCount` untouched, performs no PWM write,
and alternates between printing the two-line failure message (when
`display_count` was false) and clearing the screen (when it was true),
flipping `display_count` each time. -/
theorem C6_failure_path (hi : ℚ → ℚ → Bool → ℚ) (sample : DhtSample)
    (s : LoopState)
    (hfail : sample.humidity = none ∨ sample.tempC = none ∨
      sample.tempF = none) :
    ((loopStep hi sample s).1.previousTemp = s.previousTemp ∧
     (loopStep hi sample s).1.tempEqualCount = s.tempEqualCount) ∧
    (∀ pin v, Effect.analogWrite pin v ∉ (loopStep hi sample s).2) ∧
    (s.display_count = false →
      (loopStep hi sample s).1.display_count = true ∧
      Effect.lcdPrintStr "Failed to read" ∈ (loopStep hi sample s).2 ∧
      Effect.lcdPrintStr "from DHT sensor!" ∈ (loopStep hi sample s).2 ∧
      Effect.lcdClear ∉ (loopStep hi sample s).2) ∧
    (s.display_count = true →
      (loopStep hi sample s).1.display_count = false ∧
      Effect.lcdClear ∈ (loopStep hi sample s).2 ∧
      Effect.lcdPrintStr "Failed to read" ∉ (loopStep hi sample s).2) := by
  obtain ⟨hu, tc, tf⟩ := sample
  obtain ⟨dc, pt, cnt⟩ := s
  simp only [] at hfail
  cases hu <;> cases tc <;> cases tf <;>
    (try (cases dc <;> simp [loopStep])) <;> simp at hfail

/-- Witness for C6: a NaN humidity with `display_count = false` prints the
message; flipping it clears on the next failure. -/
theorem C6_failure_path_witness :
    ((loopStep (fun a _ _ => a) ⟨none, some 20, some 20⟩
        ⟨false, 7, 3⟩).1.previousTemp = 7 ∧
     (loopStep (fun a _ _ => a) ⟨none, some 20, some 20⟩
        ⟨false, 7, 3⟩).1.tempEqualCount = 3) ∧
    (∀ pin v, Effect.analogWrite pin v ∉
      (loopStep (fun a _ _ => a) ⟨none, some 20, some 20⟩ ⟨false, 7, 3⟩).2) ∧
    ((false : Bool) = false →
      (loopStep (fun a _ _ => a) ⟨none, some 20, some 20⟩
        ⟨false, 7, 3⟩).1.display_count = true ∧
      Effect.lcdPrintStr "Failed to read" ∈
        (loopStep (fun a _ _ => a) ⟨none, some 20, some 20⟩ ⟨false, 7, 3⟩).2 ∧
      Effect.lcdPrintStr "from DHT sensor!" ∈
        (loopStep (fun a _ _ => a) ⟨none, some 20, some 20⟩ ⟨false, 7, 3⟩).2 ∧
      Effect.lcdClear ∉
        (loopStep (fun a _ _ => a) ⟨none, some 20, some 20⟩ ⟨false, 7, 3⟩).2) ∧
    ((false : Bool) = true →
      (loopStep (fun a _ _ => a) ⟨none, some 20, some 20⟩
        ⟨false, 7, 3⟩).1.display_count = false ∧
      Effect.lcdClear ∈
        (loopStep (fun a _ _ => a) ⟨none, some 20, some 20⟩ ⟨false, 7, 3⟩).2 ∧
      Effect.lcdPrintStr "Failed to read" ∉
        (loopStep (fun a _ _ => a) ⟨none, some 20, some 20⟩ ⟨false, 7, 3⟩).2) :=
  C6_failure_path (fun a _ _ => a) ⟨none, some 20, some 20⟩ ⟨false, 7, 3⟩
    (Or.inl rfl)

/-- C9: the intensity mapping is pure, with no stored state — a
successful cycle's single PWM write is determined by the truncated
Celsius input alone (two cycles with the same reading from different
loop states write the same value), and computing it changes no program
state: the post-cycle state is exactly what the trend update produced,
with `display_count` untouched. -/
theorem C9_intensity_pure (hi : ℚ → ℚ → Bool → ℚ) (sample : DhtSample)
    (s₁ s₂ : LoopState) (hu tc tf : ℚ)
    (h1 : sample.humidity = some hu) (h2 : sample.tempC = some tc)
    (h3 : sample.tempF = some tf) :
    actuationValues (loopStep hi sample s₁).2 = [mapIntensity (itrunc tc)] ∧
    actuationValues (loopStep hi sample s₂).2 =
      actuationValues (loopStep hi sample s₁).2 ∧
    (loopStep hi sample s₁).1 =
      ⟨s₁.display_count,
       (handleTemperatureTrend (itrunc tc)
          ⟨s₁.previousTemp, s₁.tempEqualCount⟩).1.previousTemp,
       (handleTemperatureTrend (itrunc tc)
          ⟨s₁.previousTemp, s₁.tempEqualCount⟩).1.tempEqualCount⟩ := by
  obtain ⟨shu, stc, stf⟩ := sample
  simp only [] at h1 h2 h3
  subst h1 h2 h3
  exact ⟨loopStep_actuation hi hu tc tf s₁,
    (loopStep_actuation hi hu tc tf s₂).trans
      (loopStep_actuation hi hu tc tf s₁).symm, rfl⟩

/-- Witness for C9 at a concrete reading and two different loop states. -/
theorem C9_intensity_pure_witness :
    actuationValues
      (loopStep (fun a _ _ => a) ⟨some 50, some 20, some 68⟩
        ⟨false, 0, 0⟩).2 = [mapIntensity (itrunc 20)] ∧
    actuationValues
      (loopStep (fun a _ _ => a) ⟨some 50, some 20, some 68⟩
        ⟨true, 19, 400⟩).2 =
      actuationValues
        (loopStep (fun a _ _ => a) ⟨some 50, some 20, some 68⟩
          ⟨false, 0, 0⟩).2 ∧
    (loopStep (fun a _ _ => a) ⟨some 50, some 20, some 68⟩
        ⟨false, 0, 0⟩).1 =
      ⟨false,
       (handleTemperatureTrend (itrunc 20) ⟨0, 0⟩).1.previousTemp,
       (handleTemperatureTrend (itrunc 20) ⟨0, 0⟩).1.tempEqualCount⟩ :=
  C9_intensity_pure (fun a _ _ => a) ⟨some 50, some 20, some 68⟩
    ⟨false, 0, 0⟩ ⟨true, 19, 400⟩ 50 20 68 rfl rfl rfl

end TempMon
